import Mathlib

/-!
Verification development for the sdxl-prompt-creator-pro repository.

The definitions below are a shallow embedding of the prompt-composition
core: the structured prompt schema and its string assembler
(src/models/prompt_schema.py), the composition pipeline and its
knowledge-base lookup (src/composer/composer.py), and the text-generation
client error handling (src/utils/lmstudio_client.py).

Modelling conventions:
- Python `str.join` is embedded as `pyJoin`.
- Python truthiness of an `Optional[str]` value (`None` and `""` are
  falsy) is embedded as `strTruthy`; truthiness of a list as
  non-emptiness.
- The text-generation port is an arbitrary function from the pair of
  instruction strings to the generated string; the pipeline is
  parametrised over it.
- A pydantic field `Optional[list[str]]` with `default_factory=list` is
  embedded as a plain list (the pipeline always supplies a list).
- File-system and HTTP effects are embedded as explicit outcome types;
  Python exceptions escaping a function are embedded with `Except`.
- Apostrophes inside string literals are written with the `\x27` escape.
-/

/-- Embedding of the Python `sep.join(parts)` operation. -/
def pyJoin (sep : String) : List String → String
  | [] => ""
  | [x] => x
  | x :: xs => x ++ sep ++ pyJoin sep xs

/-- Python truthiness of an `Optional[str]` value: `None` and the empty
string are falsy, every other string is truthy. -/
def strTruthy : Option String → Bool
  | none => false
  | some s => !s.isEmpty

/-- Python `str.lower`, embedded character-wise.  (`String.toLower` is
the same map, but its `String.map` implementation is not
kernel-reducible, so the character-wise form is used.) -/
def pyLower (s : String) : String := ⟨s.data.map Char.toLower⟩

/-- `hasSubstr hay sub` states that `sub` occurs contiguously inside
`hay`. -/
def hasSubstr (hay sub : String) : Prop :=
  ∃ pre post, hay = pre ++ sub ++ post

/-- `src/models/prompt_schema.py`: `CharacterDetails`. -/
structure CharacterDetails where
  description : String
  outfit : Option String := none
  expression : Option String := none
deriving DecidableEq

/-- `src/models/prompt_schema.py`: `EnvironmentDetails`. -/
structure EnvironmentDetails where
  setting : String
  mood : Option String := none
  time_of_day : Option String := none
deriving DecidableEq

/-- `src/models/prompt_schema.py`: `CameraSetup`. -/
structure CameraSetup where
  shot_type : String
  angle : Option String := none
  lens : Option String := none
  composition_notes : Option String := none
deriving DecidableEq

/-- `src/models/prompt_schema.py`: `LightingDetails`. -/
structure LightingDetails where
  description : String
  temperature : Option String := none
deriving DecidableEq

/-- `src/models/prompt_schema.py`: `ArtisticStyle`. -/
structure ArtisticStyle where
  genre : String
  influences : Option String := none
  additional_details : Option String := none
deriving DecidableEq

/-- `src/models/prompt_schema.py`: `CinematicPrompt` (aggregate root). -/
structure CinematicPrompt where
  character : CharacterDetails
  environment : EnvironmentDetails
  camera : CameraSetup
  lighting : LightingDetails
  style : ArtisticStyle
  subject_focus : String
  ambiance_atmosphere : String
  negative_prompt_elements : List String := []
  final_prompt_string : Option String := none
deriving DecidableEq

/-- The body of `CinematicPrompt.generate_prompt_string` up to the local
variable `prompt_str = " ".join(parts)`, before the negative-prompt
suffix is appended. -/
def prompt_body (p : CinematicPrompt) : String :=
  let char_parts : List String :=
    [p.character.description]
      ++ (if strTruthy p.character.outfit then
            ["wearing " ++ p.character.outfit.getD ""] else [])
      ++ (if strTruthy p.character.expression then
            ["with a " ++ p.character.expression.getD "" ++ " expression"] else [])
  let env_parts : List String :=
    ["in a " ++ p.environment.setting]
      ++ (if strTruthy p.environment.mood then
            ["creating a " ++ p.environment.mood.getD "" ++ " mood"] else [])
      ++ (if strTruthy p.environment.time_of_day then
            ["during " ++ p.environment.time_of_day.getD ""] else [])
  let cam_parts : List String :=
    [p.camera.shot_type]
      ++ (if strTruthy p.camera.angle then [p.camera.angle.getD ""] else [])
      ++ (if strTruthy p.camera.lens then
            ["using a " ++ p.camera.lens.getD "" ++ " lens"] else [])
      ++ (if strTruthy p.camera.composition_notes then
            ["with " ++ p.camera.composition_notes.getD ""] else [])
  let light_parts : List String :=
    [p.lighting.description]
      ++ (if strTruthy p.lighting.temperature then
            ["with " ++ p.lighting.temperature.getD "" ++ " tones"] else [])
  let style_parts : List String :=
    ["Style: " ++ p.style.genre]
      ++ (if strTruthy p.style.influences then
            ["influenced by " ++ p.style.influences.getD ""] else [])
      ++ (if strTruthy p.style.additional_details then
            [p.style.additional_details.getD ""] else [])
  let parts : List String :=
    [pyJoin ", " char_parts,
     pyJoin " " env_parts,
     "Focusing on " ++ p.subject_focus ++ ".",
     "The overall atmosphere is " ++ p.ambiance_atmosphere ++ ".",
     "Camera: " ++ pyJoin ", " cam_parts ++ ".",
     "Lighting: " ++ pyJoin ", " light_parts ++ ".",
     pyJoin ". " style_parts ++ ".",
     "ultra-detailed, 8k, photorealistic, cinematic composition"]
  pyJoin " " parts

/-- `CinematicPrompt.generate_prompt_string`: the returned string.  The
negative-prompt suffix is appended when the list is (Python-)truthy,
i.e. non-empty. -/
def generate_prompt_string (p : CinematicPrompt) : String :=
  let prompt_str := prompt_body p
  if p.negative_prompt_elements.isEmpty then prompt_str
  else prompt_str ++ " --neg " ++ pyJoin ", " p.negative_prompt_elements

/-- `CinematicPrompt.generate_prompt_string` including its write-back of
the result into `self.final_prompt_string`: returns the string together
with the updated record. -/
def run_generate_prompt_string (p : CinematicPrompt) : String × CinematicPrompt :=
  let s := generate_prompt_string p
  (s, { p with final_prompt_string := some s })

/-- A per-character trait record of the knowledge base
(`data/character_traits.json` entries as read by
`src/composer/composer.py`).  A `none` field embeds an absent dictionary
key. -/
structure CharacterTraits where
  description_keywords : Option (List String) := none
  outfit_keywords : Option (List String) := none
  expression_keywords : Option (List String) := none
  environment_keywords : Option (List String) := none
  genre_keywords : Option (List String) := none
  negative_prompt_keywords : Option (List String) := none
deriving DecidableEq

/-- The loaded knowledge base: the key/record pairs of the traits JSON
object, in insertion order. -/
abbrev KnowledgeBase := List (String × CharacterTraits)

/-- `PromptComposer._get_known_traits`: first record whose key matches
the queried name case-insensitively. -/
def get_known_traits (kb : KnowledgeBase) (character_name : String) :
    Option CharacterTraits :=
  match kb with
  | [] => none
  | (known_name, traits) :: rest =>
    if pyLower known_name == pyLower character_name then some traits
    else get_known_traits rest character_name

/-- The optional hint sentence appended to a user prompt when the looked
up traits carry the selected keyword list (the
`if known_traits and "..._keywords" in known_traits:` pattern of the
`_generate_*` helpers).  An absent record or an absent key contributes
nothing. -/
def hint_part (traits : Option CharacterTraits)
    (sel : CharacterTraits → Option (List String)) (intro : String) :
    List String :=
  match traits with
  | none => []
  | some t =>
    match sel t with
    | none => []
    | some keywords => [intro ++ pyJoin ", " keywords ++ "."]

/-- One request issued to the text-generation port: the system prompt
and the user prompt. -/
structure GenCall where
  system : String
  user : String
deriving DecidableEq

def sys_visuals : String :=
  "You are an AI assistant helping describe character visuals for an image generation prompt. Focus on appearance, age, and key features. Elaborate on any provided known traits."

/-- User prompt of `_generate_character_visuals`. -/
def user_visuals (character_name : String) (traits : Option CharacterTraits) : String :=
  pyJoin " " (["Describe the character \x27" ++ character_name ++ "\x27."]
    ++ hint_part traits (fun t => t.description_keywords)
         "Incorporate these known iconic traits: ")

def sys_outfit : String :=
  "You are an AI assistant helping describe outfit details for a character based on their visuals for an image generation prompt. Elaborate on any provided known traits."

/-- User prompt of `_generate_outfit_details`. -/
def user_outfit (character_name character_visuals : String)
    (traits : Option CharacterTraits) : String :=
  pyJoin " " (["Given the character \x27" ++ character_name
      ++ "\x27 who looks like: \x27" ++ character_visuals
      ++ "\x27, describe their outfit."]
    ++ hint_part traits (fun t => t.outfit_keywords)
         "Known iconic outfit elements include: ")

def sys_expression : String :=
  "You are an AI assistant helping describe the facial expression or emotion of a character for an image generation prompt. Elaborate on any provided known traits."

/-- User prompt of `_generate_character_expression`. -/
def user_expression (character_name character_visuals : String)
    (traits : Option CharacterTraits) : String :=
  pyJoin " " (["What is the expression of \x27" ++ character_name
      ++ "\x27 who looks like: \x27" ++ character_visuals ++ "\x27?"]
    ++ hint_part traits (fun t => t.expression_keywords)
         "Known expressions or typical demeanor includes: ")

def sys_env_setting : String :=
  "You are an AI assistant creating a compelling environment/setting for a character in an image generation prompt."

/-- User prompt of `_generate_environment_setting`. -/
def user_env_setting (character_name : String) (traits : Option CharacterTraits) : String :=
  pyJoin " " (["Describe a suitable setting for the character \x27"
      ++ character_name ++ "\x27."]
    ++ hint_part traits (fun t => t.environment_keywords)
         "Consider their typical environments such as: ")

def sys_env_mood : String :=
  "You are an AI assistant defining the mood of an environment based on its description."

/-- User prompt of `_generate_environment_mood`. -/
def user_env_mood (setting_description : String) : String :=
  "For the setting \x27" ++ setting_description
    ++ "\x27, what is the emotional atmosphere or tone?"

def sys_time_of_day : String :=
  "You are an AI assistant determining an appropriate time of day for a described environment."

/-- User prompt of `_generate_time_of_day`. -/
def user_time_of_day (setting_description : String) : String :=
  "For the setting \x27" ++ setting_description ++ "\x27, what is the time of day?"

def sys_shot_type : String :=
  "You are an AI assistant selecting a cinematic camera shot type (e.g., close-up, medium shot, full shot) for a character in a scene."

/-- User prompt of `_generate_camera_shot_type`. -/
def user_shot_type (character_name setting_description : String) : String :=
  "For \x27" ++ character_name ++ "\x27 in \x27" ++ setting_description
    ++ "\x27, what is a good camera shot type?"

def sys_angle : String :=
  "You are an AI assistant selecting a camera angle (e.g., eye-level, low angle) for a character."

/-- User prompt of `_generate_camera_angle`. -/
def user_angle (character_name shot_type : String) : String :=
  "For \x27" ++ character_name ++ "\x27 with a \x27" ++ shot_type
    ++ "\x27, suggest a camera angle."

def sys_lens : String :=
  "You are an AI assistant suggesting a camera lens (e.g., 35mm, wide-angle) appropriate for a shot type and artistic style."

/-- User prompt of `_generate_camera_lens`. -/
def user_lens (shot_type style_genre : String) : String :=
  "For a \x27" ++ shot_type ++ "\x27 in a \x27" ++ style_genre
    ++ "\x27 style, what lens would be suitable?"

def sys_lighting : String :=
  "You are an AI assistant describing the lighting of a scene."

/-- User prompt of `_generate_lighting_description`. -/
def user_lighting (character_name setting_description time_of_day : String) : String :=
  "Describe the lighting for \x27" ++ character_name ++ "\x27 in \x27"
    ++ setting_description ++ "\x27 during \x27" ++ time_of_day ++ "\x27."

def sys_light_temp : String :=
  "You are an AI assistant describing the lighting temperature."

/-- User prompt of `_generate_lighting_temperature`. -/
def user_light_temp (lighting_description : String) : String :=
  "For lighting described as \x27" ++ lighting_description
    ++ "\x27, what is its color temperature (e.g. cool, warm)?"

def sys_genre : String :=
  "You are an AI assistant determining an artistic genre (e.g., photorealistic, fantasy art) for a character."

/-- User prompt of `_generate_artistic_genre`. -/
def user_genre (character_name : String) (traits : Option CharacterTraits) : String :=
  pyJoin " " (["What artistic genre best fits \x27" ++ character_name ++ "\x27?"]
    ++ hint_part traits (fun t => t.genre_keywords)
         "Consider their typical genre: ")

def sys_influences : String :=
  "You are an AI assistant suggesting artistic influences (artists, movies) for a given genre."

/-- User prompt of `_generate_artistic_influences`. -/
def user_influences (genre : String) : String :=
  "For the genre \x27" ++ genre ++ "\x27, suggest some artistic influences."

def sys_subject_focus : String :=
  "You are an AI assistant defining the main subject or focus of an image, given a character and setting."

/-- User prompt of `_generate_subject_focus`. -/
def user_subject_focus (character_description setting : String) : String :=
  "The character is \x27" ++ character_description ++ "\x27 in \x27" ++ setting
    ++ "\x27. What should be the main subject focus of the image?"

def sys_ambiance : String :=
  "You are an AI assistant describing the overall ambiance and atmosphere to convey in an image."

/-- User prompt of `_generate_ambiance_atmosphere`. -/
def user_ambiance (character_description setting mood : String) : String :=
  "Given the character \x27" ++ character_description ++ "\x27, the setting \x27"
    ++ setting ++ "\x27, and mood \x27" ++ mood
    ++ "\x27, describe the overall ambiance and atmosphere."

/-- `PromptComposer.compose_prompt`, parametrised over the
text-generation port `gen` (a function from the system/user prompt pair
to the generated text) and the loaded knowledge base. -/
def compose_prompt (gen : String → String → String) (kb : KnowledgeBase)
    (character_name : String) : CinematicPrompt :=
  let known_traits := get_known_traits kb character_name
  let char_visuals := gen sys_visuals (user_visuals character_name known_traits)
  let char_outfit := gen sys_outfit (user_outfit character_name char_visuals known_traits)
  let char_expression :=
    gen sys_expression (user_expression character_name char_visuals known_traits)
  let env_setting := gen sys_env_setting (user_env_setting character_name known_traits)
  let env_mood := gen sys_env_mood (user_env_mood env_setting)
  let env_time_of_day := gen sys_time_of_day (user_time_of_day env_setting)
  let art_genre := gen sys_genre (user_genre character_name known_traits)
  let art_influences := gen sys_influences (user_influences art_genre)
  let cam_shot_type := gen sys_shot_type (user_shot_type character_name env_setting)
  let cam_angle := gen sys_angle (user_angle character_name cam_shot_type)
  let cam_lens := gen sys_lens (user_lens cam_shot_type art_genre)
  let light_desc :=
    gen sys_lighting (user_lighting character_name env_setting env_time_of_day)
  let light_temp := gen sys_light_temp (user_light_temp light_desc)
  let subject := gen sys_subject_focus (user_subject_focus char_visuals env_setting)
  let ambiance := gen sys_ambiance (user_ambiance char_visuals env_setting env_mood)
  let negative_prompts_list :=
    match known_traits with
    | some t =>
      match t.negative_prompt_keywords with
      | some keywords => keywords
      | none => []
    | none => []
  let prompt_data : CinematicPrompt :=
    { character :=
        { description := char_visuals
          outfit := some char_outfit
          expression := some char_expression }
      environment :=
        { setting := env_setting
          mood := some env_mood
          time_of_day := some env_time_of_day }
      camera :=
        { shot_type := cam_shot_type
          angle := some cam_angle
          lens := some cam_lens
          composition_notes := none }
      lighting :=
        { description := light_desc
          temperature := some light_temp }
      style :=
        { genre := art_genre
          influences := some art_influences
          additional_details := none }
      subject_focus := subject
      ambiance_atmosphere := ambiance
      negative_prompt_elements := negative_prompts_list
      final_prompt_string := none }
  (run_generate_prompt_string prompt_data).2

/-- Instrumented semantics of `PromptComposer.compose_prompt`: the same
computation, additionally recording every request issued to the
text-generation port, in issue order. -/
def compose_prompt_trace (gen : String → String → String) (kb : KnowledgeBase)
    (character_name : String) : CinematicPrompt × List GenCall :=
  let known_traits := get_known_traits kb character_name
  let c1 : GenCall := ⟨sys_visuals, user_visuals character_name known_traits⟩
  let char_visuals := gen c1.system c1.user
  let c2 : GenCall := ⟨sys_outfit, user_outfit character_name char_visuals known_traits⟩
  let char_outfit := gen c2.system c2.user
  let c3 : GenCall :=
    ⟨sys_expression, user_expression character_name char_visuals known_traits⟩
  let char_expression := gen c3.system c3.user
  let c4 : GenCall := ⟨sys_env_setting, user_env_setting character_name known_traits⟩
  let env_setting := gen c4.system c4.user
  let c5 : GenCall := ⟨sys_env_mood, user_env_mood env_setting⟩
  let env_mood := gen c5.system c5.user
  let c6 : GenCall := ⟨sys_time_of_day, user_time_of_day env_setting⟩
  let env_time_of_day := gen c6.system c6.user
  let c7 : GenCall := ⟨sys_genre, user_genre character_name known_traits⟩
  let art_genre := gen c7.system c7.user
  let c8 : GenCall := ⟨sys_influences, user_influences art_genre⟩
  let art_influences := gen c8.system c8.user
  let c9 : GenCall := ⟨sys_shot_type, user_shot_type character_name env_setting⟩
  let cam_shot_type := gen c9.system c9.user
  let c10 : GenCall := ⟨sys_angle, user_angle character_name cam_shot_type⟩
  let cam_angle := gen c10.system c10.user
  let c11 : GenCall := ⟨sys_lens, user_lens cam_shot_type art_genre⟩
  let cam_lens := gen c11.system c11.user
  let c12 : GenCall :=
    ⟨sys_lighting, user_lighting character_name env_setting env_time_of_day⟩
  let light_desc := gen c12.system c12.user
  let c13 : GenCall := ⟨sys_light_temp, user_light_temp light_desc⟩
  let light_temp := gen c13.system c13.user
  let c14 : GenCall := ⟨sys_subject_focus, user_subject_focus char_visuals env_setting⟩
  let subject := gen c14.system c14.user
  let c15 : GenCall := ⟨sys_ambiance, user_ambiance char_visuals env_setting env_mood⟩
  let ambiance := gen c15.system c15.user
  let negative_prompts_list :=
    match known_traits with
    | some t =>
      match t.negative_prompt_keywords with
      | some keywords => keywords
      | none => []
    | none => []
  let prompt_data : CinematicPrompt :=
    { character :=
        { description := char_visuals
          outfit := some char_outfit
          expression := some char_expression }
      environment :=
        { setting := env_setting
          mood := some env_mood
          time_of_day := some env_time_of_day }
      camera :=
        { shot_type := cam_shot_type
          angle := some cam_angle
          lens := some cam_lens
          composition_notes := none }
      lighting :=
        { description := light_desc
          temperature := some light_temp }
      style :=
        { genre := art_genre
          influences := some art_influences
          additional_details := none }
      subject_focus := subject
      ambiance_atmosphere := ambiance
      negative_prompt_elements := negative_prompts_list
      final_prompt_string := none }
  ((run_generate_prompt_string prompt_data).2,
   [c1, c2, c3, c4, c5, c6, c7, c8, c9, c10, c11, c12, c13, c14, c15])

/-- The user prompt of the i-th recorded generation call. -/
def userAt (calls : List GenCall) (i : Nat) : String :=
  ((calls.get? i).getD ⟨"", ""⟩).user

/-- The outcome of reading and parsing the character-traits file in
`PromptComposer._load_character_traits`.  `missing` embeds
`os.path.exists` returning false; `unreadable` embeds `open`/`read`
raising (caught by the generic handler); `malformed` embeds
`json.load` raising `json.JSONDecodeError`; `parsed` embeds a
successful parse. -/
inductive TraitsSource where
  | missing
  | unreadable (message : String)
  | malformed
  | parsed (kb : KnowledgeBase)

/-- `PromptComposer._load_character_traits`: the knowledge base held by
the composer after construction.  Every failure branch is caught inside
the method and yields the empty knowledge base; the function is total,
so construction never raises. -/
def load_character_traits : TraitsSource → KnowledgeBase
  | .missing => []
  | .unreadable _ => []
  | .malformed => []
  | .parsed kb => kb

/-- A Python value decoded from a JSON document
(for `src/utils/lmstudio_client.py`). -/
inductive PyJson where
  | null
  | bool (b : Bool)
  | num (n : Int)
  | str (s : String)
  | arr (elems : List PyJson)
  | obj (fields : List (String × PyJson))

/-- The Python exceptions that can escape the field-extraction code of
`LMStudioClient.generate_text`. -/
inductive PyExc where
  | attributeError
  | keyError
  | indexError
  | typeError
deriving DecidableEq

/-- Python truthiness of a decoded JSON value. -/
def PyJson.truthy : PyJson → Bool
  | .null => false
  | .bool b => b
  | .num n => n != 0
  | .str s => !s.isEmpty
  | .arr elems => !elems.isEmpty
  | .obj fields => !fields.isEmpty

/-- Python `value.get(key)`: only a dict supports `.get`; on any other
value the attribute access raises `AttributeError`.  An absent key
yields `None`. -/
def PyJson.get (j : PyJson) (key : String) : Except PyExc PyJson :=
  match j with
  | .obj fields =>
    match fields.lookup key with
    | some v => .ok v
    | none => .ok .null
  | _ => .error .attributeError

/-- Python `value[0]`: a list yields its first element (IndexError when
empty), a string yields its first character, a dict raises `KeyError`
(JSON object keys are strings, so the integer key 0 is never present),
and other values are not subscriptable (`TypeError`). -/
def PyJson.index0 : PyJson → Except PyExc PyJson
  | .arr [] => .error .indexError
  | .arr (x :: _) => .ok x
  | .str s => if s.isEmpty then .error .indexError else .ok (.str (String.singleton s.front))
  | .obj _ => .error .keyError
  | _ => .error .typeError

/-- Python `str.strip()`, embedded character-wise over the underlying
character list (`String.trim` is the same operation but is not
kernel-reducible). -/
def pyStrip (s : String) : String :=
  ⟨((s.data.dropWhile Char.isWhitespace).reverse.dropWhile Char.isWhitespace).reverse⟩

/-- Python `value.strip()`: only defined on strings; on any other value
the attribute access raises `AttributeError`. -/
def PyJson.strip : PyJson → Except PyExc String
  | .str s => .ok (pyStrip s)
  | _ => .error .attributeError

/-- The body of the `try` block of `LMStudioClient.generate_text` after
a successful JSON parse: the guard
`if not completion_data.get("choices") or not
completion_data["choices"][0].get("message") or not
completion_data["choices"][0]["message"].get("content")` followed by
`completion_data["choices"][0]["message"]["content"].strip()`.
`none` means the guard fired (the unexpected-structure error string is
returned); after `.get(k)` has been checked truthy the bracket access
`[k]` yields the same value, so the value is reused. -/
def extract_content (completion_data : PyJson) : Except PyExc (Option String) := do
  let choices ← completion_data.get "choices"
  if !choices.truthy then return none
  let first ← choices.index0
  let message ← first.get "message"
  if !message.truthy then return none
  let content ← message.get "content"
  if !content.truthy then return none
  let text ← content.strip
  return some text

/-- The outcome of the HTTP POST in `LMStudioClient.generate_text`.
`requestException` embeds any `requests.exceptions.RequestException`
(connection failure, timeout, or `raise_for_status` on an error
status); `invalidJson` embeds a response body that is not parseable
JSON (`json.JSONDecodeError`); `jsonBody` embeds a parsed body. -/
inductive HttpOutcome where
  | requestException (message : String)
  | invalidJson
  | jsonBody (body : PyJson)

/-- `LMStudioClient.generate_text`: `.ok` is the string returned to the
caller, `.error` an exception escaping the method.  Only
`RequestException`, `json.JSONDecodeError` and `KeyError` are caught by
its handlers. -/
def generate_text : HttpOutcome → Except PyExc String
  | .requestException message =>
    .ok ("Error: Error connecting to LM Studio or during request: " ++ message)
  | .invalidJson =>
    .ok "Error: Error: Could not decode JSON response from LM Studio API."
  | .jsonBody body =>
    match extract_content body with
    | .ok none => .ok "Error: Unexpected response structure from LM Studio API."
    | .ok (some text) => .ok text
    | .error .keyError =>
      .ok "Error: Error: \x27choices\x27 or \x27content\x27 not found in LM Studio API response."
    | .error e => .error e

/-! Helper lemmas. -/

theorem isEmpty_false_of_ne {s : String} (h : s ≠ "") : s.isEmpty = false := by
  cases hs : s.isEmpty
  · rfl
  · exact absurd ((String.isEmpty_iff s).mp hs) h

theorem generate_prompt_string_split (p : CinematicPrompt) :
    generate_prompt_string p =
      prompt_body p
        ++ (if p.negative_prompt_elements.isEmpty then ""
            else " --neg " ++ pyJoin ", " p.negative_prompt_elements) := by
  cases hn : p.negative_prompt_elements.isEmpty <;>
    simp [generate_prompt_string, hn, String.append_assoc]

theorem pyJoin_cons_cons (sep x y : String) (ys : List String) :
    pyJoin sep (x :: y :: ys) = x ++ sep ++ pyJoin sep (y :: ys) := rfl

theorem pyJoin_cons_ex (sep x : String) (xs : List String) :
    ∃ t, pyJoin sep (x :: xs) = x ++ t := by
  cases xs with
  | nil => exact ⟨"", by simp [pyJoin]⟩
  | cons y ys => exact ⟨sep ++ pyJoin sep (y :: ys), by simp [pyJoin, String.append_assoc]⟩

theorem pyJoin_last_ex (sep last : String) (xs : List String) :
    ∃ a, pyJoin sep (xs ++ [last]) = a ++ last := by
  induction xs with
  | nil => exact ⟨"", by simp [pyJoin]⟩
  | cons x xs ih =>
    obtain ⟨a, ha⟩ := ih
    cases xs with
    | nil =>
      exact ⟨x ++ sep, by simp [pyJoin, String.append_assoc]⟩
    | cons y ys =>
      refine ⟨x ++ sep ++ a, ?_⟩
      simp only [List.cons_append] at ha ⊢
      rw [pyJoin_cons_cons, ha]
      simp [String.append_assoc]

theorem hasSubstr_self (s : String) : hasSubstr s s :=
  ⟨"", "", by simp⟩

theorem hasSubstr_append_left {a sub : String} (h : hasSubstr a sub) (b : String) :
    hasSubstr (a ++ b) sub := by
  obtain ⟨pre, post, rfl⟩ := h
  exact ⟨pre, post ++ b, by simp [String.append_assoc]⟩

theorem hasSubstr_append_right {b sub : String} (h : hasSubstr b sub) (a : String) :
    hasSubstr (a ++ b) sub := by
  obtain ⟨pre, post, rfl⟩ := h
  exact ⟨a ++ pre, post, by simp [String.append_assoc]⟩

theorem hasSubstr_infix {hay sub : String} (h : hasSubstr hay sub) :
    sub.data <:+: hay.data := by
  obtain ⟨pre, post, rfl⟩ := h
  exact ⟨pre.data, post.data, by simp [String.data_append]⟩

/-! Claim theorems. -/

/-- C2: for a structured prompt whose every optional field is populated
with a non-empty string, the assembler returns the character clause,
the environment clause, the focusing sentence, the atmosphere sentence,
the camera clause, the lighting clause, the style clause and the fixed
quality suffix, in this order, joined by single spaces (followed by the
negative-prompt suffix when that list is non-empty). -/
theorem c2_assemble_all_fields
    (p : CinematicPrompt) (o e m t a l cn tp inf ad : String)
    (ho : p.character.outfit = some o) (ho2 : o ≠ "")
    (he : p.character.expression = some e) (he2 : e ≠ "")
    (hm : p.environment.mood = some m) (hm2 : m ≠ "")
    (ht : p.environment.time_of_day = some t) (ht2 : t ≠ "")
    (ha : p.camera.angle = some a) (ha2 : a ≠ "")
    (hl : p.camera.lens = some l) (hl2 : l ≠ "")
    (hcn : p.camera.composition_notes = some cn) (hcn2 : cn ≠ "")
    (htp : p.lighting.temperature = some tp) (htp2 : tp ≠ "")
    (hinf : p.style.influences = some inf) (hinf2 : inf ≠ "")
    (had : p.style.additional_details = some ad) (had2 : ad ≠ "") :
    generate_prompt_string p =
      pyJoin " "
        [pyJoin ", " [p.character.description, "wearing " ++ o,
           "with a " ++ e ++ " expression"],
         pyJoin " " ["in a " ++ p.environment.setting,
           "creating a " ++ m ++ " mood", "during " ++ t],
         "Focusing on " ++ p.subject_focus ++ ".",
         "The overall atmosphere is " ++ p.ambiance_atmosphere ++ ".",
         "Camera: " ++ pyJoin ", " [p.camera.shot_type, a,
           "using a " ++ l ++ " lens", "with " ++ cn] ++ ".",
         "Lighting: " ++ pyJoin ", " [p.lighting.description,
           "with " ++ tp ++ " tones"] ++ ".",
         pyJoin ". " ["Style: " ++ p.style.genre, "influenced by " ++ inf, ad] ++ ".",
         "ultra-detailed, 8k, photorealistic, cinematic composition"]
      ++ (if p.negative_prompt_elements.isEmpty then ""
          else " --neg " ++ pyJoin ", " p.negative_prompt_elements) := by
  rw [generate_prompt_string_split]
  simp [prompt_body, ho, he, hm, ht, ha, hl, hcn, htp, hinf, had, strTruthy,
    isEmpty_false_of_ne ho2, isEmpty_false_of_ne he2, isEmpty_false_of_ne hm2,
    isEmpty_false_of_ne ht2, isEmpty_false_of_ne ha2, isEmpty_false_of_ne hl2,
    isEmpty_false_of_ne hcn2, isEmpty_false_of_ne htp2, isEmpty_false_of_ne hinf2,
    isEmpty_false_of_ne had2]

set_option maxRecDepth 100000 in
/-- Witness for C2: a fully populated prompt, every hypothesis
discharged on concrete values, and the assembled string evaluated. -/
theorem c2_assemble_all_fields_witness :
    generate_prompt_string
      { character := { description := "A rugged space pirate", outfit := some "worn leather jacket", expression := some "determined smirk" }
        environment := { setting := "starship bridge", mood := some "tense", time_of_day := some "artificial night" }
        camera := { shot_type := "medium close-up", angle := some "low angle", lens := some "35mm", composition_notes := some "rule of thirds" }
        lighting := { description := "blue rim light", temperature := some "cool" }
        style := { genre := "sci-fi realism", influences := some "Blade Runner", additional_details := some "film grain" }
        subject_focus := "the pirate"
        ambiance_atmosphere := "high-tech grit"
        negative_prompt_elements := ["cartoonish", "blurry"] } =
    "A rugged space pirate, wearing worn leather jacket, with a determined smirk expression in a starship bridge creating a tense mood during artificial night Focusing on the pirate. The overall atmosphere is high-tech grit. Camera: medium close-up, low angle, using a 35mm lens, with rule of thirds. Lighting: blue rim light, with cool tones. Style: sci-fi realism. influenced by Blade Runner. film grain. ultra-detailed, 8k, photorealistic, cinematic composition --neg cartoonish, blurry" :=
  (c2_assemble_all_fields _ "worn leather jacket" "determined smirk" "tense"
    "artificial night" "low angle" "35mm" "rule of thirds" "cool" "Blade Runner"
    "film grain" rfl (by decide) rfl (by decide) rfl (by decide) rfl (by decide)
    rfl (by decide) rfl (by decide) rfl (by decide) rfl (by decide) rfl (by decide)
    rfl (by decide)).trans (by decide)

set_option maxRecDepth 100000 in
/-- Counterexample to C3: with `character.outfit` present but equal to
the empty string, the assembled string does NOT contain the stray
phrase `wearing ` — the truthiness check treats the empty string as
absent, so the clause is not triggered. -/
theorem c3_counterexample :
    ¬ hasSubstr
        (generate_prompt_string
          { character := { description := "A young witch", outfit := some "", expression := none }
            environment := { setting := "enchanted forest" }
            camera := { shot_type := "full shot" }
            lighting := { description := "moonlight" }
            style := { genre := "fantasy art" }
            subject_focus := "the witch casting a spell"
            ambiance_atmosphere := "mystical and magical" })
        "wearing " := by
  intro h
  have hinf := hasSubstr_infix h
  revert hinf
  decide

/-- C3 (amended): a present-but-empty optional string field never
triggers its clause; the assembler treats it exactly as an absent
field, for each of the ten optional string fields. -/
theorem c3_amended_empty_treated_as_absent (p : CinematicPrompt) :
    generate_prompt_string { p with character := { p.character with outfit := some "" } }
      = generate_prompt_string { p with character := { p.character with outfit := none } }
    ∧ generate_prompt_string { p with character := { p.character with expression := some "" } }
      = generate_prompt_string { p with character := { p.character with expression := none } }
    ∧ generate_prompt_string { p with environment := { p.environment with mood := some "" } }
      = generate_prompt_string { p with environment := { p.environment with mood := none } }
    ∧ generate_prompt_string { p with environment := { p.environment with time_of_day := some "" } }
      = generate_prompt_string { p with environment := { p.environment with time_of_day := none } }
    ∧ generate_prompt_string { p with camera := { p.camera with angle := some "" } }
      = generate_prompt_string { p with camera := { p.camera with angle := none } }
    ∧ generate_prompt_string { p with camera := { p.camera with lens := some "" } }
      = generate_prompt_string { p with camera := { p.camera with lens := none } }
    ∧ generate_prompt_string { p with camera := { p.camera with composition_notes := some "" } }
      = generate_prompt_string { p with camera := { p.camera with composition_notes := none } }
    ∧ generate_prompt_string { p with lighting := { p.lighting with temperature := some "" } }
      = generate_prompt_string { p with lighting := { p.lighting with temperature := none } }
    ∧ generate_prompt_string { p with style := { p.style with influences := some "" } }
      = generate_prompt_string { p with style := { p.style with influences := none } }
    ∧ generate_prompt_string { p with style := { p.style with additional_details := some "" } }
      = generate_prompt_string { p with style := { p.style with additional_details := none } } :=
  ⟨rfl, rfl, rfl, rfl, rfl, rfl, rfl, rfl, rfl, rfl⟩

/-- C8: the assembler is deterministic and idempotent — re-running it on
the record it just updated yields the same string, and its output does
not depend on the previously stored `final_prompt_string`. -/
theorem c8_idempotent_deterministic (p : CinematicPrompt) :
    (run_generate_prompt_string (run_generate_prompt_string p).2).1
      = (run_generate_prompt_string p).1
    ∧ ∀ x : Option String,
        generate_prompt_string { p with final_prompt_string := x }
          = generate_prompt_string p :=
  ⟨rfl, fun _ => rfl⟩

theorem compose_negs (gen : String → String → String) (kb : KnowledgeBase)
    (name : String) :
    (compose_prompt gen kb name).negative_prompt_elements =
      match get_known_traits kb name with
      | some t =>
        match t.negative_prompt_keywords with
        | some keywords => keywords
        | none => []
      | none => [] := rfl

theorem compose_final (gen : String → String → String) (kb : KnowledgeBase)
    (name : String) :
    (compose_prompt gen kb name).final_prompt_string =
      some (generate_prompt_string (compose_prompt gen kb name)) := rfl

theorem pyJoin_eight_ex (sep a b c d e f g q : String) :
    ∃ x, pyJoin sep [a, b, c, d, e, f, g, q] = x ++ q := by
  simpa using pyJoin_last_ex sep q [a, b, c, d, e, f, g]

theorem prompt_body_ends (p : CinematicPrompt) :
    ∃ a, prompt_body p =
      a ++ "ultra-detailed, 8k, photorealistic, cinematic composition" := by
  simp only [prompt_body]
  exact pyJoin_eight_ex " " _ _ _ _ _ _ _ _

theorem get_known_traits_cons (k : String) (tr : CharacterTraits)
    (rest : KnowledgeBase) (q : String) :
    get_known_traits ((k, tr) :: rest) q =
      if pyLower k = pyLower q then some tr else get_known_traits rest q := by
  simp [get_known_traits]

/-- C9: knowledge-base lookup is case-insensitive exact matching — a
returned record is keyed by a name equal to the query up to letter
case, and the lookup returns nothing exactly when no key matches
case-insensitively. -/
theorem c9_lookup_case_insensitive (kb : KnowledgeBase) (q : String) :
    (∀ t, get_known_traits kb q = some t →
        ∃ k, (k, t) ∈ kb ∧ pyLower k = pyLower q)
    ∧ (get_known_traits kb q = none ↔
        ∀ e ∈ kb, pyLower (e : String × CharacterTraits).1 ≠ pyLower q) := by
  induction kb with
  | nil =>
    refine ⟨fun t h => by simp [get_known_traits] at h, ?_⟩
    simp [get_known_traits]
  | cons hd rest ih =>
    obtain ⟨k, tr⟩ := hd
    by_cases hk : pyLower k = pyLower q
    · refine ⟨fun t h => ?_, ?_⟩
      · rw [get_known_traits_cons, if_pos hk] at h
        injection h with h
        subst h
        exact ⟨k, List.mem_cons_self _ _, hk⟩
      · rw [get_known_traits_cons, if_pos hk]
        constructor
        · intro h
          exact absurd h (Option.some_ne_none _)
        · intro h
          exact absurd hk (h (k, tr) (List.mem_cons_self _ _))
    · rw [get_known_traits_cons, if_neg hk]
      refine ⟨fun t h => ?_, ?_⟩
      · obtain ⟨k2, hmem, hlow⟩ := ih.1 t h
        exact ⟨k2, List.mem_cons_of_mem _ hmem, hlow⟩
      · rw [ih.2]
        constructor
        · intro h e he
          rcases List.mem_cons.mp he with rfl | hmem
          · exact hk
          · exact h e hmem
        · intro h e he
          exact h e (List.mem_cons_of_mem _ he)

/-- Witness for C9: the record keyed `Marge Simpson` is found for the
query `marge simpson`. -/
theorem c9_lookup_case_insensitive_witness :
    ∃ k, (k, ({} : CharacterTraits)) ∈
        ([("Marge Simpson", {})] : KnowledgeBase)
      ∧ pyLower k = pyLower "marge simpson" :=
  (c9_lookup_case_insensitive [("Marge Simpson", {})] "marge simpson").1 {} rfl

/-- C10: every failing traits-file outcome — missing file, unreadable
file, or malformed JSON — leaves the knowledge base empty; the loader
is total (no exception escapes construction). -/
theorem c10_load_failures_yield_empty_kb :
    load_character_traits .missing = ([] : KnowledgeBase)
    ∧ (∀ message, load_character_traits (.unreadable message) = ([] : KnowledgeBase))
    ∧ load_character_traits .malformed = ([] : KnowledgeBase) :=
  ⟨rfl, fun _ => rfl, rfl⟩

/-- C5: the negative-prompt list of a composed prompt is exactly the
knowledge-base `negative_prompt_keywords` when present and empty
otherwise; the assembled string carries the ` --neg ` suffix with
exactly those elements comma-joined and nothing after it when the list
is non-empty, and ends in the quality suffix (no ` --neg ` suffix at
all) when the list is empty. -/
theorem c5_negative_prompt_suffix (gen : String → String → String)
    (kb : KnowledgeBase) (name : String) :
    ((∀ t keywords, get_known_traits kb name = some t →
        t.negative_prompt_keywords = some keywords →
        (compose_prompt gen kb name).negative_prompt_elements = keywords)
      ∧ (∀ t, get_known_traits kb name = some t →
          t.negative_prompt_keywords = none →
          (compose_prompt gen kb name).negative_prompt_elements = [])
      ∧ (get_known_traits kb name = none →
          (compose_prompt gen kb name).negative_prompt_elements = []))
    ∧ (compose_prompt gen kb name).final_prompt_string =
        some (generate_prompt_string (compose_prompt gen kb name))
    ∧ generate_prompt_string (compose_prompt gen kb name) =
        prompt_body (compose_prompt gen kb name)
          ++ (if (compose_prompt gen kb name).negative_prompt_elements.isEmpty then ""
              else " --neg "
                ++ pyJoin ", " (compose_prompt gen kb name).negative_prompt_elements)
    ∧ ((compose_prompt gen kb name).negative_prompt_elements = [] →
        ∀ pre, generate_prompt_string (compose_prompt gen kb name) ≠ pre ++ " --neg ") := by
  refine ⟨⟨?_, ?_, ?_⟩, compose_final gen kb name,
    generate_prompt_string_split _, ?_⟩
  · intro t keywords h1 h2
    rw [compose_negs, h1]
    simp [h2]
  · intro t h1 h2
    rw [compose_negs, h1]
    simp [h2]
  · intro h1
    rw [compose_negs, h1]
  · intro hneg pre heq
    obtain ⟨a, ha⟩ := prompt_body_ends (compose_prompt gen kb name)
    have hs : generate_prompt_string (compose_prompt gen kb name) =
        a ++ "ultra-detailed, 8k, photorealistic, cinematic composition" := by
      rw [generate_prompt_string_split, hneg, ha]
      simp
    have h1 : (" --neg ").data <:+ (generate_prompt_string (compose_prompt gen kb name)).data :=
      ⟨pre.data, by rw [← String.data_append, heq]⟩
    have h2 : ("ultra-detailed, 8k, photorealistic, cinematic composition").data
        <:+ (generate_prompt_string (compose_prompt gen kb name)).data :=
      ⟨a.data, by rw [← String.data_append, hs]⟩
    have h3 := List.suffix_of_suffix_length_le h1 h2 (by decide)
    revert h3
    decide

/-- Witness for C5: a knowledge-base record with negative keywords is
copied verbatim, and an unknown character yields the empty list. -/
theorem c5_negative_prompt_suffix_witness :
    (compose_prompt (fun _ _ => "ok")
        [("Marge Simpson", { negative_prompt_keywords := some ["cartoonish", "blurry"] })]
        "marge simpson").negative_prompt_elements = ["cartoonish", "blurry"]
    ∧ (compose_prompt (fun _ _ => "ok") [] "A stranger").negative_prompt_elements = [] :=
  ⟨(c5_negative_prompt_suffix (fun _ _ => "ok")
      [("Marge Simpson", { negative_prompt_keywords := some ["cartoonish", "blurry"] })]
      "marge simpson").1.1 _ _ rfl rfl,
   (c5_negative_prompt_suffix (fun _ _ => "ok") [] "A stranger").1.2.2 rfl⟩

theorem pyJoin_head_substr (sep x : String) (xs : List String) (sub : String)
    (h : hasSubstr x sub) : hasSubstr (pyJoin sep (x :: xs)) sub := by
  obtain ⟨t, ht⟩ := pyJoin_cons_ex sep x xs
  rw [ht]
  exact hasSubstr_append_left h t

theorem prompt_body_contains_setting (p : CinematicPrompt) :
    hasSubstr (prompt_body p) ("in a " ++ p.environment.setting) := by
  simp only [prompt_body]
  rw [pyJoin_cons_cons]
  apply hasSubstr_append_right
  apply pyJoin_head_substr
  apply pyJoin_head_substr
  exact hasSubstr_self _

/-- C1: when the generation port answers the environment-setting call
with the sentinel `Error: timeout`, composition neither aborts nor
special-cases the sentinel — the string is stored verbatim in
`environment.setting`, it is threaded into every downstream call that
depends on the setting (mood, time of day, shot type, lighting, subject
focus and ambiance — trace indices 4, 5, 8, 11, 13 and 14), and the
assembled prompt string visibly contains `in a Error: timeout`. -/
theorem c1_error_sentinel_poisons_pipeline (gen : String → String → String)
    (kb : KnowledgeBase) (name : String)
    (h : gen sys_env_setting (user_env_setting name (get_known_traits kb name))
      = "Error: timeout") :
    (compose_prompt gen kb name).environment.setting = "Error: timeout"
    ∧ (∀ i ∈ [4, 5, 8, 11, 13, 14],
        hasSubstr (userAt (compose_prompt_trace gen kb name).2 i) "Error: timeout")
    ∧ ∃ s, (compose_prompt gen kb name).final_prompt_string = some s
        ∧ hasSubstr s "in a Error: timeout" := by
  refine ⟨h, ?_, ?_⟩
  · intro i hi
    fin_cases hi
    · show hasSubstr
        (user_env_mood (gen sys_env_setting (user_env_setting name (get_known_traits kb name))))
        "Error: timeout"
      rw [h]
      exact ⟨"For the setting \x27", "\x27, what is the emotional atmosphere or tone?",
        by simp only [user_env_mood, String.append_assoc]⟩
    · show hasSubstr
        (user_time_of_day (gen sys_env_setting (user_env_setting name (get_known_traits kb name))))
        "Error: timeout"
      rw [h]
      exact ⟨"For the setting \x27", "\x27, what is the time of day?",
        by simp only [user_time_of_day, String.append_assoc]⟩
    · show hasSubstr
        (user_shot_type name (gen sys_env_setting (user_env_setting name (get_known_traits kb name))))
        "Error: timeout"
      rw [h]
      exact ⟨"For \x27" ++ name ++ "\x27 in \x27", "\x27, what is a good camera shot type?",
        by simp only [user_shot_type, String.append_assoc]⟩
    · show hasSubstr
        (user_lighting name (gen sys_env_setting (user_env_setting name (get_known_traits kb name)))
          (gen sys_time_of_day (user_time_of_day
            (gen sys_env_setting (user_env_setting name (get_known_traits kb name))))))
        "Error: timeout"
      rw [h]
      exact ⟨"Describe the lighting for \x27" ++ name ++ "\x27 in \x27",
        "\x27 during \x27"
          ++ gen sys_time_of_day (user_time_of_day "Error: timeout") ++ "\x27.",
        by simp only [user_lighting, String.append_assoc]⟩
    · show hasSubstr
        (user_subject_focus (gen sys_visuals (user_visuals name (get_known_traits kb name)))
          (gen sys_env_setting (user_env_setting name (get_known_traits kb name))))
        "Error: timeout"
      rw [h]
      exact ⟨"The character is \x27"
          ++ gen sys_visuals (user_visuals name (get_known_traits kb name))
          ++ "\x27 in \x27",
        "\x27. What should be the main subject focus of the image?",
        by simp only [user_subject_focus, String.append_assoc]⟩
    · show hasSubstr
        (user_ambiance (gen sys_visuals (user_visuals name (get_known_traits kb name)))
          (gen sys_env_setting (user_env_setting name (get_known_traits kb name)))
          (gen sys_env_mood (user_env_mood
            (gen sys_env_setting (user_env_setting name (get_known_traits kb name))))))
        "Error: timeout"
      rw [h]
      exact ⟨"Given the character \x27"
          ++ gen sys_visuals (user_visuals name (get_known_traits kb name))
          ++ "\x27, the setting \x27",
        "\x27, and mood \x27" ++ gen sys_env_mood (user_env_mood "Error: timeout")
          ++ "\x27, describe the overall ambiance and atmosphere.",
        by simp only [user_ambiance, String.append_assoc]⟩
  · refine ⟨generate_prompt_string (compose_prompt gen kb name),
      compose_final gen kb name, ?_⟩
    rw [generate_prompt_string_split]
    apply hasSubstr_append_left
    have hb := prompt_body_contains_setting (compose_prompt gen kb name)
    rw [show (compose_prompt gen kb name).environment.setting = "Error: timeout" from h] at hb
    have he : ("in a " ++ "Error: timeout" : String) = "in a Error: timeout" := by decide
    rwa [he] at hb

/-- Witness for C1: a concrete port that answers the setting call with
`Error: timeout` and every other call with `ok`. -/
theorem c1_error_sentinel_poisons_pipeline_witness :
    (compose_prompt (fun s _ => if s = sys_env_setting then "Error: timeout" else "ok")
        [] "Rick").environment.setting = "Error: timeout"
    ∧ ∃ s, (compose_prompt (fun s _ => if s = sys_env_setting then "Error: timeout" else "ok")
          [] "Rick").final_prompt_string = some s
        ∧ hasSubstr s "in a Error: timeout" := by
  have h : (fun s _ => if s = sys_env_setting then "Error: timeout" else "ok") sys_env_setting
      (user_env_setting "Rick" (get_known_traits [] "Rick")) = "Error: timeout" := by
    simp
  exact ⟨(c1_error_sentinel_poisons_pipeline _ [] "Rick" h).1,
    (c1_error_sentinel_poisons_pipeline _ [] "Rick" h).2.2⟩

/-- Counterexample to C6: the claim quantifies over every generation
port, but a port that returns the empty string makes the required
`character.description` field empty while composition still returns
normally. -/
theorem c6_counterexample :
    (compose_prompt (fun _ _ => "") [] "Rick").character.description = "" := rfl

/-- C6 (amended): if the generation port never returns the empty
string, then every required field of the composed prompt is non-empty
(each is the verbatim result of one generation call). -/
theorem c6_amended_required_nonempty (gen : String → String → String)
    (kb : KnowledgeBase) (name : String) (h : ∀ s u, gen s u ≠ "") :
    (compose_prompt gen kb name).character.description ≠ ""
    ∧ (compose_prompt gen kb name).environment.setting ≠ ""
    ∧ (compose_prompt gen kb name).camera.shot_type ≠ ""
    ∧ (compose_prompt gen kb name).lighting.description ≠ ""
    ∧ (compose_prompt gen kb name).style.genre ≠ ""
    ∧ (compose_prompt gen kb name).subject_focus ≠ ""
    ∧ (compose_prompt gen kb name).ambiance_atmosphere ≠ "" :=
  ⟨h _ _, h _ _, h _ _, h _ _, h _ _, h _ _, h _ _⟩

/-- Witness for C6 (amended): a port returning the constant `x` makes
the required fields non-empty. -/
theorem c6_amended_required_nonempty_witness :
    (("x" : String) ≠ "")
    ∧ (compose_prompt (fun _ _ => "x") [] "Rick").character.description ≠ "" := by
  have hx : ("x" : String) ≠ "" := by decide
  exact ⟨hx,
    (c6_amended_required_nonempty (fun _ _ => "x") [] "Rick" (fun _ _ => hx)).1⟩

/-- C7: `generate_text` wraps transport failures, undecodable bodies
and guard-detected absent fields in `Error:`-prefixed strings — but a
parseable JSON body of unexpected shape (here the document `5`, which
is not an object) makes the field access raise `AttributeError`, which
no handler catches: the method raises instead of returning a sentinel,
contradicting the claim. -/
theorem c7_generate_text_error_handling :
    generate_text (HttpOutcome.jsonBody (PyJson.num 5))
      = Except.error PyExc.attributeError
    ∧ (∀ message, ∃ rest, generate_text (HttpOutcome.requestException message)
        = Except.ok ("Error:" ++ rest))
    ∧ generate_text HttpOutcome.invalidJson
        = Except.ok "Error: Error: Could not decode JSON response from LM Studio API."
    ∧ generate_text (HttpOutcome.jsonBody (PyJson.obj []))
        = Except.ok "Error: Unexpected response structure from LM Studio API."
    ∧ generate_text (HttpOutcome.jsonBody (PyJson.obj [("choices", PyJson.arr
        [PyJson.obj [("message", PyJson.obj [("content", PyJson.str "hi")])]])]))
        = Except.ok "hi" := by
  refine ⟨rfl, ?_, rfl, rfl, rfl⟩
  intro message
  refine ⟨" Error connecting to LM Studio or during request: " ++ message, ?_⟩
  show Except.ok ("Error: Error connecting to LM Studio or during request: " ++ message)
    = Except.ok (("Error:" : String)
        ++ (" Error connecting to LM Studio or during request: " ++ message))
  rw [← String.append_assoc]
  rw [show (("Error:" : String) ++ " Error connecting to LM Studio or during request: ")
    = "Error: Error connecting to LM Studio or during request: " by decide]

/-- C4: for every port and character name, composition issues exactly
fifteen generation calls, in source order, whose inputs respect the
declared dependency DAG (each dependent call carries the upstream
result verbatim inside its user prompt), and the fifteen results
populate the five sub-records and the two free fields of the returned
prompt, whose `final_prompt_string` is set by the assembler. -/
theorem c4_fifteen_call_dag (gen : String → String → String) (kb : KnowledgeBase)
    (name : String) :
    (compose_prompt_trace gen kb name).1 = compose_prompt gen kb name
    ∧ (compose_prompt_trace gen kb name).2.length = 15
    ∧ (let traits := get_known_traits kb name
       let v := gen sys_visuals (user_visuals name traits)
       let st := gen sys_env_setting (user_env_setting name traits)
       let md := gen sys_env_mood (user_env_mood st)
       let td := gen sys_time_of_day (user_time_of_day st)
       let g := gen sys_genre (user_genre name traits)
       let sh := gen sys_shot_type (user_shot_type name st)
       let ld := gen sys_lighting (user_lighting name st td)
       (compose_prompt_trace gen kb name).2 =
         [⟨sys_visuals, user_visuals name traits⟩,
          ⟨sys_outfit, user_outfit name v traits⟩,
          ⟨sys_expression, user_expression name v traits⟩,
          ⟨sys_env_setting, user_env_setting name traits⟩,
          ⟨sys_env_mood, user_env_mood st⟩,
          ⟨sys_time_of_day, user_time_of_day st⟩,
          ⟨sys_genre, user_genre name traits⟩,
          ⟨sys_influences, user_influences g⟩,
          ⟨sys_shot_type, user_shot_type name st⟩,
          ⟨sys_angle, user_angle name sh⟩,
          ⟨sys_lens, user_lens sh g⟩,
          ⟨sys_lighting, user_lighting name st td⟩,
          ⟨sys_light_temp, user_light_temp ld⟩,
          ⟨sys_subject_focus, user_subject_focus v st⟩,
          ⟨sys_ambiance, user_ambiance v st md⟩]
       ∧ (compose_prompt gen kb name).character.description = v
       ∧ (compose_prompt gen kb name).character.outfit
           = some (gen sys_outfit (user_outfit name v traits))
       ∧ (compose_prompt gen kb name).character.expression
           = some (gen sys_expression (user_expression name v traits))
       ∧ (compose_prompt gen kb name).environment.setting = st
       ∧ (compose_prompt gen kb name).environment.mood = some md
       ∧ (compose_prompt gen kb name).environment.time_of_day = some td
       ∧ (compose_prompt gen kb name).camera.shot_type = sh
       ∧ (compose_prompt gen kb name).camera.angle
           = some (gen sys_angle (user_angle name sh))
       ∧ (compose_prompt gen kb name).camera.lens
           = some (gen sys_lens (user_lens sh g))
       ∧ (compose_prompt gen kb name).camera.composition_notes = none
       ∧ (compose_prompt gen kb name).lighting.description = ld
       ∧ (compose_prompt gen kb name).lighting.temperature
           = some (gen sys_light_temp (user_light_temp ld))
       ∧ (compose_prompt gen kb name).style.genre = g
       ∧ (compose_prompt gen kb name).style.influences
           = some (gen sys_influences (user_influences g))
       ∧ (compose_prompt gen kb name).style.additional_details = none
       ∧ (compose_prompt gen kb name).subject_focus
           = gen sys_subject_focus (user_subject_focus v st)
       ∧ (compose_prompt gen kb name).ambiance_atmosphere
           = gen sys_ambiance (user_ambiance v st md)
       ∧ (compose_prompt gen kb name).final_prompt_string
           = some (generate_prompt_string (compose_prompt gen kb name))
       ∧ hasSubstr (user_outfit name v traits) v
       ∧ hasSubstr (user_expression name v traits) v
       ∧ hasSubstr (user_env_mood st) st
       ∧ hasSubstr (user_time_of_day st) st
       ∧ hasSubstr (user_shot_type name st) st
       ∧ hasSubstr (user_lighting name st td) st
       ∧ hasSubstr (user_subject_focus v st) st
       ∧ hasSubstr (user_ambiance v st md) st
       ∧ hasSubstr (user_influences g) g
       ∧ hasSubstr (user_lens sh g) g
       ∧ hasSubstr (user_angle name sh) sh
       ∧ hasSubstr (user_lens sh g) sh
       ∧ hasSubstr (user_light_temp ld) ld
       ∧ hasSubstr (user_ambiance v st md) md) := by
  refine ⟨rfl, rfl, rfl, rfl, rfl, rfl, rfl, rfl, rfl, rfl, rfl, rfl, rfl, rfl,
    rfl, rfl, rfl, rfl, rfl, rfl, compose_final gen kb name,
    ?_, ?_, ?_, ?_, ?_, ?_, ?_, ?_, ?_, ?_, ?_, ?_, ?_, ?_⟩
  · apply pyJoin_head_substr
    exact ⟨"Given the character \x27" ++ name ++ "\x27 who looks like: \x27",
      "\x27, describe their outfit.",
      by simp only [String.append_assoc]⟩
  · apply pyJoin_head_substr
    exact ⟨"What is the expression of \x27" ++ name ++ "\x27 who looks like: \x27",
      "\x27?", by simp only [String.append_assoc]⟩
  · exact ⟨"For the setting \x27", "\x27, what is the emotional atmosphere or tone?",
      by simp only [user_env_mood, String.append_assoc]⟩
  · exact ⟨"For the setting \x27", "\x27, what is the time of day?",
      by simp only [user_time_of_day, String.append_assoc]⟩
  · exact ⟨"For \x27" ++ name ++ "\x27 in \x27", "\x27, what is a good camera shot type?",
      by simp only [user_shot_type, String.append_assoc]⟩
  · exact ⟨"Describe the lighting for \x27" ++ name ++ "\x27 in \x27",
      "\x27 during \x27"
        ++ gen sys_time_of_day (user_time_of_day
            (gen sys_env_setting (user_env_setting name (get_known_traits kb name))))
        ++ "\x27.",
      by simp only [user_lighting, String.append_assoc]⟩
  · exact ⟨"The character is \x27"
        ++ gen sys_visuals (user_visuals name (get_known_traits kb name)) ++ "\x27 in \x27",
      "\x27. What should be the main subject focus of the image?",
      by simp only [user_subject_focus, String.append_assoc]⟩
  · exact ⟨"Given the character \x27"
        ++ gen sys_visuals (user_visuals name (get_known_traits kb name))
        ++ "\x27, the setting \x27",
      "\x27, and mood \x27"
        ++ gen sys_env_mood (user_env_mood
            (gen sys_env_setting (user_env_setting name (get_known_traits kb name))))
        ++ "\x27, describe the overall ambiance and atmosphere.",
      by simp only [user_ambiance, String.append_assoc]⟩
  · exact ⟨"For the genre \x27", "\x27, suggest some artistic influences.",
      by simp only [user_influences, String.append_assoc]⟩
  · exact ⟨"For a \x27"
        ++ gen sys_shot_type (user_shot_type name
            (gen sys_env_setting (user_env_setting name (get_known_traits kb name))))
        ++ "\x27 in a \x27",
      "\x27 style, what lens would be suitable?",
      by simp only [user_lens, String.append_assoc]⟩
  · exact ⟨"For \x27" ++ name ++ "\x27 with a \x27", "\x27, suggest a camera angle.",
      by simp only [user_angle, String.append_assoc]⟩
  · exact ⟨"For a \x27", "\x27 in a \x27"
        ++ gen sys_genre (user_genre name (get_known_traits kb name))
        ++ "\x27 style, what lens would be suitable?",
      by simp only [user_lens, String.append_assoc]⟩
  · exact ⟨"For lighting described as \x27",
      "\x27, what is its color temperature (e.g. cool, warm)?",
      by simp only [user_light_temp, String.append_assoc]⟩
  · exact ⟨"Given the character \x27"
        ++ gen sys_visuals (user_visuals name (get_known_traits kb name))
        ++ "\x27, the setting \x27"
        ++ gen sys_env_setting (user_env_setting name (get_known_traits kb name))
        ++ "\x27, and mood \x27",
      "\x27, describe the overall ambiance and atmosphere.",
      by simp only [user_ambiance, String.append_assoc]⟩
